import Mathlib

/-!
Verification of the phosphor-fan-presence control core against its
natural-language specification.

The definitions below are a shallow embedding of the C++ sources:
  * `control` namespace — `src/control/json/manager.cpp` and
    `src/control/json/zone.cpp` (the JSON-driven fan-control manager and
    zone objects),
  * `monitor` namespace — `src/monitor/fan.cpp` (the fan health monitor).

Machine integers (`uint64_t`) are modelled as `Nat`; none of the verified
operations can overflow 64 bits on the inputs the theorems quantify over,
and none of them relies on wrap-around.  `std::map`s are modelled as
association lists together with a first-occurrence `lookupKey`; `std::map`
keys are unique, and all theorems are stated through `lookupKey`, which is
insensitive to entries that the map representation could not contain.
Fallible operations (bus calls, config parsing) are modelled as explicit
`Except` results or boolean outcome parameters.
-/

namespace control

/-- The closed tagged union of property values held by the object cache
(`PropertyVariantType` in the sources); the `double` alternative is omitted
as no verified operation inspects it. -/
inductive PropertyVariantType where
  | boolV (b : Bool)
  | u64 (n : Nat)
  | i64 (n : Int)
  | str (s : String)
  | strList (l : List String)
deriving DecidableEq

/-- `configKey` from `manager.hpp`: a `(name, profiles)` pair identifying a
configurable entity. -/
abbrev configKey := String × List String

/-- First-occurrence lookup in an association list, mirroring `std::map::find`. -/
def lookupKey {α : Type} : List (String × α) → String → Option α
  | [], _ => none
  | (k, v) :: rest, k2 => if k = k2 then some v else lookupKey rest k2

/-- Update the value of the first entry with key `k` (mirroring mutation of a
`std::map` entry), appending `(k, f d)` when `k` is absent (mirroring
`operator[]` default construction followed by mutation). -/
def mapSetD {α : Type} (m : List (String × α)) (k : String) (d : α) (f : α → α) :
    List (String × α) :=
  match m with
  | [] => [(k, f d)]
  | (k2, v) :: rest =>
    if k2 = k then (k2, f v) :: rest else (k2, v) :: mapSetD rest k d f

/-- Overwrite the value of the first entry with key `k`, appending when absent
(mirroring `std::map` element assignment). -/
def mapSet {α : Type} (m : List (String × α)) (k : String) (v : α) :
    List (String × α) :=
  mapSetD m k v (fun _ => v)

/-- `Manager::inConfig` (manager.cpp, lines 255-287): the compatibility
predicate between an input config key and a comparison key, under the given
active-profile list (the static `_activeProfiles` passed explicitly). -/
def Manager.inConfig (input comp : configKey) (activeProfiles : List String) :
    Bool :=
  -- Config names dont match, do not include in config
  if input.1 ≠ comp.1 then
    false
  -- No profiles specified by input config, can be used in any config
  else if input.2.isEmpty then
    true
  else
    -- Profiles must have one match in the other's profiles (and they must be
    -- an active profile) to be used in the config
    input.2.any (fun lProfile =>
      comp.2.any (fun rProfile =>
        if lProfile ≠ rProfile then false
        else activeProfiles.contains lProfile))

/-- A control-side fan (`Fan` of control/json/fan.hpp as used by
`Manager::load` and the zone): its name, the name of the zone it belongs to,
and its cached last-written target. -/
structure Fan where
  name : String
  zone : String
  target : Nat
deriving DecidableEq

/-- A zone (`Zone` of zone.cpp).  `decDelta` (the accumulated minimum
decrease request of the current interval, 0 when none) and `incDeadline`
(the instant until which decreases are blocked) are the fields §4.5 of the
spec describes for the decrease machinery whose bodies are not in the
sources; every other field mirrors zone.cpp / zone.hpp. -/
structure Zone where
  name : String
  fullSpeed : Nat
  defaultFloor : Nat
  incDelay : Nat
  decInterval : Nat
  floor : Nat
  target : Nat
  poweronTarget : Nat
  floorChange : List (String × Bool)
  propsPersisted : List (String × List String)
  fans : List Fan
  decDelta : Nat
  incDeadline : Nat
deriving DecidableEq

/-- The `Zone` constructor (zone.cpp, lines 51-76): `setFullSpeed` starts the
current target at `full_speed`, `setDefaultFloor` starts the current floor at
`default_floor`; `increase_delay` defaults to 0 when absent; the
floor-change gate map and persisted-property map start empty. -/
def Zone.ofConfig (name : String) (fullSpeed defaultFloor decInterval incDelay
    poweronTarget : Nat) : Zone :=
  { name := name
    fullSpeed := fullSpeed
    defaultFloor := defaultFloor
    incDelay := incDelay
    decInterval := decInterval
    floor := defaultFloor
    target := fullSpeed
    poweronTarget := poweronTarget
    floorChange := []
    propsPersisted := []
    fans := []
    decDelta := 0
    incDeadline := 0 }

/-- `Zone::addFan` (zone.cpp, lines 78-81). -/
def Zone.addFan (z : Zone) (fan : Fan) : Zone :=
  { z with fans := z.fans ++ [fan] }

/-- `Zone::requestIncrease` (zone.cpp, lines 98-101): the body is an
unimplemented stub (`TODO Add from requestSpeedIncrease method in YAML zone
object`), so the call leaves the zone unchanged. -/
def Zone.requestIncrease (z : Zone) (_targetDelta : Nat) : Zone :=
  z

/-- `Zone::setFloor` (zone.cpp, lines 83-96): applied only when every entry
of the floor-change gate map is true; when the new floor exceeds the current
target, `requestIncrease(floor - target)` is issued. -/
def Zone.setFloor (z : Zone) (target : Nat) : Zone :=
  if z.floorChange.all (fun entry => entry.2) then
    let z1 := { z with floor := target }
    if z1.target < z1.floor then z1.requestIncrease (z1.floor - z1.target)
    else z1
  else z

/-- `Zone::setPersisted` (zone.cpp, lines 103-111): `_propsPersisted[intf]`
default-creates the interface entry; the property name is appended only when
`find_if` already locates it in that entry's list. -/
def Zone.setPersisted (z : Zone) (intf prop : String) : Zone :=
  { z with propsPersisted :=
      (mapSetD z.propsPersisted intf []
        (fun cur => if cur.any (fun p => prop = p) then cur ++ [prop] else cur)) }

/-- `Zone::isPersisted` (zone.cpp, lines 255-265). -/
def Zone.isPersisted (z : Zone) (intf prop : String) : Bool :=
  match lookupKey z.propsPersisted intf with
  | none => false
  | some l => l.any (fun p => prop = p)

/-- Modelled from the spec: `request_decrease(delta)` (§4.5) — the method is
not in the sources; it records the smallest requested decrease across all
callers in the current interval (`decDelta = 0` meaning none recorded). -/
def Zone.requestDecrease (z : Zone) (targetDelta : Nat) : Zone :=
  { z with decDelta := if z.decDelta = 0 then targetDelta
                       else min z.decDelta targetDelta }

/-- Modelled from the spec: the decrease-timer pass (§4.5) — the timer
callback is not in the sources.  Let `d` be the accumulated minimum decrease
(0 if none); if `d > 0` and `now ≥ increase_deadline` and `target - d ≥
floor` then `target ← target - d`; otherwise if `target - d < floor` then
`target ← floor`; the accumulator is reset.  The comparisons are read over
the integers, so `target - d ≥ floor` is `floor + d ≤ target`. -/
def Zone.decreaseTick (z : Zone) (now : Nat) : Zone :=
  if 0 < z.decDelta ∧ z.incDeadline ≤ now ∧ z.floor + z.decDelta ≤ z.target then
    { z with target := z.target - z.decDelta, decDelta := 0 }
  else if z.target < z.floor + z.decDelta then
    { z with target := z.floor, decDelta := 0 }
  else
    { z with decDelta := 0 }

/-- The services cache `_servTree` (manager.cpp):
`path → service → (owned?, interfaces)` as nested association lists. -/
abbrev ServTree := List (String × List (String × (Bool × List String)))

/-- The `(owned, interfaces)` entry of `(path, service)` in the services
cache. -/
def servEntry (tree : ServTree) (path serv : String) :
    Option (Bool × List String) :=
  (lookupKey tree path).bind (fun servMap => lookupKey servMap serv)

/-- The first phase of `Manager::setOwner` (manager.cpp, lines 315-324):
`_servTree[path][serv]` default-creates the entry, its owner flag is set to
`isOwned`, and `intf` is appended to its interface list when not already
present. -/
def Manager.setOwnerNamed (tree : ServTree) (path serv intf : String)
    (isOwned : Bool) : ServTree :=
  mapSetD tree path []
    (fun servMap => mapSetD servMap serv (false, [])
      (fun ownIntf =>
        (isOwned,
         if intf ∈ ownIntf.2 then ownIntf.2 else ownIntf.2 ++ [intf])))

/-- `Manager::setOwner` (manager.cpp, lines 312-349): after updating the
named entry, every other path's entry of the same service whose interface
list contains `intf` gets its owner flag set to `isOwned` (paths equal to
`path` are skipped by the `continue`, services different from `serv` and
entries without `intf` are left alone). -/
def Manager.setOwner (tree : ServTree) (path serv intf : String)
    (isOwned : Bool) : ServTree :=
  (Manager.setOwnerNamed tree path serv intf isOwned).map
    (fun itPath =>
      (itPath.1,
       if itPath.1 = path then itPath.2
       else itPath.2.map (fun itServ =>
         (itServ.1,
          if itServ.1 ≠ serv then itServ.2
          else if intf ∈ itServ.2.2 then (isOwned, itServ.2.2)
          else itServ.2))))

/-- The object cache `_objects` (manager.cpp):
`path → interface → property → value` as nested association lists. -/
abbrev PropMap := List (String × PropertyVariantType)

/-- Interface-to-properties map of one cached object. -/
abbrev IntfMap := List (String × PropMap)

/-- The whole object cache. -/
abbrev ObjectsCache := List (String × IntfMap)

/-- The cache-merge loop of `Manager::addObjects` (manager.cpp, lines
509-548) for one object returned by the managed-objects fetch.  When the
object's path is already in the cache, the source iterates the *cached*
entry `itPath->second` (not the fetched object's interfaces), re-finds each
iterated key in the same cached maps — a lookup that never fails — and
assigns each found property its own iterated value, so the nested insert
branches are unreachable and the fetched data is never consulted; when the
path is absent, the whole fetched object is inserted. -/
def Manager.mergeManagedObject (objects : ObjectsCache)
    (object : String × IntfMap) : ObjectsCache :=
  match lookupKey objects object.1 with
  | some cachedIntfs =>
    -- Path found in cache
    mapSet objects object.1
      (cachedIntfs.foldl
        (fun acc interface =>
          match lookupKey acc interface.1 with
          | some itIntf =>
            -- Interface found in cache
            mapSet acc interface.1
              (interface.2.foldl
                (fun pacc property =>
                  match lookupKey pacc property.1 with
                  | some _ =>
                    -- Property found, update value
                    mapSet pacc property.1 property.2
                  | none => pacc ++ [property])
                itIntf)
          | none => acc ++ [interface])
        cachedIntfs)
  | none => objects ++ [object]

/-- The cache-update phase of `Manager::addObjects` over the whole
managed-objects fetch result (the bus fetch itself is external). -/
def Manager.addObjectsMerge (objects : ObjectsCache)
    (fetched : List (String × IntfMap)) : ObjectsCache :=
  fetched.foldl Manager.mergeManagedObject objects

/-- A public zone mutation, as enumerated by the spec's target-bounds
property: an increase request, a decrease request, a floor change, or a
decrease-timer tick at instant `now`. -/
inductive ZoneStep where
  | requestIncrease (delta : Nat)
  | requestDecrease (delta : Nat)
  | setFloor (f : Nat)
  | decreaseTick (now : Nat)
deriving DecidableEq

/-- Whether a step is a `set_floor` call. -/
def ZoneStep.isSetFloorStep : ZoneStep → Bool
  | .setFloor _ => true
  | _ => false

/-- Apply one public mutation to a zone. -/
def Zone.applyStep (z : Zone) : ZoneStep → Zone
  | .requestIncrease delta => z.requestIncrease delta
  | .requestDecrease delta => z.requestDecrease delta
  | .setFloor f => z.setFloor f
  | .decreaseTick now => z.decreaseTick now

/-- Apply a sequence of public mutations, first step first. -/
def Zone.applySteps (z : Zone) (steps : List ZoneStep) : Zone :=
  steps.foldl Zone.applyStep z

/-- The zone target-bounds invariant: `floor ≤ target ≤ full_speed`. -/
def zoneInvariant (z : Zone) : Prop :=
  z.floor ≤ z.target ∧ z.target ≤ z.fullSpeed

instance (z : Zone) : Decidable (zoneInvariant z) := by
  unfold zoneInvariant
  infer_instance

end control

namespace monitor

/-- A tach sensor as the fan health monitor sees it (monitor/fan.cpp): the
timer-expiry path touches only the name and the per-sensor `functional`
flag; the input/target readings and the debounce-timer handle live in the
external `TachSensor` object. -/
structure TachSensor where
  name : String
  functional : Bool
deriving DecidableEq

/-- A monitored fan (`Fan` of monitor/fan.cpp): the fan-level `_functional`
flag, the `num_sensor_fails_for_nonfunc` threshold, and the contained tach
sensors. -/
structure Fan where
  name : String
  functional : Bool
  numSensorFailsForNonFunc : Nat
  sensors : List TachSensor
deriving DecidableEq

/-- `sensor.setFunctional(false)` applied to the `i`-th sensor of the
list. -/
def setFunctionalAt : List TachSensor → Nat → List TachSensor
  | [], _ => []
  | s :: rest, 0 => { s with functional := false } :: rest
  | s :: rest, n + 1 => s :: setFunctionalAt rest n

/-- The `count_if` of `Fan::tooManySensorsNonfunctional`: the number of
sensors whose `functional` flag is false. -/
def countNonfunctional (sensors : List TachSensor) : Nat :=
  sensors.countP (fun s => !s.functional)

/-- `Fan::tooManySensorsNonfunctional` (fan.cpp, lines 157-166):
`numFailed >= _numSensorFailsForNonFunc`. -/
def Fan.tooManySensorsNonfunctional (fan : Fan) : Bool :=
  decide (fan.numSensorFailsForNonFunc ≤ countNonfunctional fan.sensors)

/-- `Fan::updateInventory` (fan.cpp, lines 207-228): `busOk` is the outcome
of the inventory `Notify` bus call (`!response.is_method_error()`); when the
call returns a method error the function logs and returns before
`_functional` is assigned, so the flag keeps its previous value. -/
def Fan.updateInventory (fan : Fan) (functional busOk : Bool) : Fan :=
  if !busOk then fan
  else { fan with functional := functional }

/-- `Fan::timerExpired` (fan.cpp, lines 186-204) on expiry of the `i`-th
sensor's debounce timer: the sensor is marked non-functional; if the fan was
functional and too many contained sensors are now non-functional, the whole
fan is updated non-functional through `updateInventory(false)` (whose bus
outcome is `busOk`). -/
def Fan.timerExpired (fan : Fan) (i : Nat) (busOk : Bool) : Fan :=
  let fan1 := { fan with sensors := setFunctionalAt fan.sensors i }
  if fan1.functional && fan1.tooManySensorsNonfunctional then
    fan1.updateInventory false busOk
  else fan1

end monitor

namespace control

/-- Modelled from the spec: `set_target(u64)` (§4.5) — the method body is
not in the sources (it is declared in zone.hpp); it sets the zone's current
target. -/
def Zone.setTarget (z : Zone) (target : Nat) : Zone :=
  { z with target := target }

/-- A profile (`Profile` of profile.hpp): name, prerequisite profile names,
and the `active` flag frozen at load time. -/
structure Profile where
  name : String
  profiles : List String
  active : Bool
deriving DecidableEq

/-- A group (`Group` of group.hpp): member paths, shared interface, shared
property; immutable after construction. -/
structure Group where
  members : List String
  interface : String
  property : String
deriving DecidableEq

/-- An event (`Event` of event.hpp) as the manager observes it: its name and
how many times its PowerOn / PowerOff triggers have run. -/
structure Event where
  name : String
  powerOnRuns : Nat
  powerOffRuns : Nat
deriving DecidableEq

/-- `Event::powerOn`: run the event's power-on triggers once. -/
def Event.powerOn (e : Event) : Event :=
  { e with powerOnRuns := e.powerOnRuns + 1 }

/-- `Event::powerOff`: run the event's power-off triggers once. -/
def Event.powerOff (e : Event) : Event :=
  { e with powerOffRuns := e.powerOffRuns + 1 }

/-- The manager's mutable configuration state (manager.hpp): the available
profiles, the static active-profile list, the event registry's accumulated
groups (`Event::allGroups`), the enabled zones and events, the timers and
signal subscriptions, and the `_loadAllowed` latch. -/
structure ManagerState where
  profiles : List (configKey × Profile)
  activeProfiles : List String
  allGroups : List (configKey × Group)
  zones : List (configKey × Zone)
  events : List (configKey × Event)
  timers : List String
  signals : List String
  loadAllowed : Bool
deriving DecidableEq

/-- The error text of `Manager::powerStateChanged` with no zones. -/
def noZonesMsg : String := "No configured zones found at poweron"

/-- `Manager::powerStateChanged` (manager.cpp, lines 226-248): at power-on
with no zones a fatal runtime error is raised; otherwise every zone's target
is set to its poweron target and every event's PowerOn triggers fire; at
power-off every event's PowerOff triggers fire. -/
def Manager.powerStateChanged (st : ManagerState) (powerStateOn : Bool) :
    Except String ManagerState :=
  if powerStateOn then
    if st.zones.isEmpty then
      Except.error noZonesMsg
    else
      Except.ok
        { st with
          zones := st.zones.map
            (fun entry => (entry.1, entry.2.setTarget entry.2.poweronTarget)),
          events := st.events.map (fun entry => (entry.1, entry.2.powerOn)) }
  else
    Except.ok
      { st with
        events := st.events.map (fun entry => (entry.1, entry.2.powerOff)) }

/-- The fan loop body of `Manager::load` (manager.cpp, lines 168-187) for a
single fan: `find_if` locates the first zone whose key is compatible with
the fan's `(zone, profiles)` key; when found, if the zone's current target
differs from the fan's nonzero current target the zone target is updated to
the fan's, and the fan is moved into the zone. -/
def Manager.addFanToZones (zones : List (configKey × Zone))
    (active : List String) (fanKey : configKey) (fan : Fan) :
    List (configKey × Zone) :=
  match zones with
  | [] => []
  | z :: rest =>
    if Manager.inConfig fanKey z.1 active then
      (z.1,
       (if z.2.target ≠ fan.target ∧ fan.target ≠ 0 then
          z.2.setTarget fan.target
        else z.2).addFan fan) :: rest
    else z :: Manager.addFanToZones rest active fanKey fan

/-- The whole fan loop of `Manager::load` over the loaded fans. -/
def Manager.addFansToZones (zones : List (configKey × Zone))
    (fans : List (configKey × Fan)) (active : List String) :
    List (configKey × Zone) :=
  fans.foldl
    (fun zs fanEntry =>
      Manager.addFanToZones zs active (fanEntry.2.zone, fanEntry.1.2)
        fanEntry.2)
    zones

/-- The outcomes of the external fetch/parse steps `Manager::load` performs,
passed explicitly: the profiles step (`setProfiles`; a failure leaves behind
the partially rebuilt profile containers carried by the error payload), the
zone and fan `getConfig` runs (failures leave no shared state behind, the
containers being locals), and the event `getConfig` run (a failure leaves
partially accumulated registry groups, carried by the error payload; success
carries the built events and the newly accumulated groups). -/
structure LoadInputs where
  profilesRes : Except (List (configKey × Profile) × List String)
    (List (configKey × Profile) × List String)
  zonesRes : Except Unit (List (configKey × Zone))
  fansRes : Except Unit (List (configKey × Fan))
  eventsRes : Except (List (configKey × Group))
    (List (configKey × Event) × List (configKey × Group))

/-- Whether an `Except` result is a thrown error. -/
def exceptFails {e a : Type} : Except e a → Bool
  | Except.error _ => true
  | Except.ok _ => false

/-- Whether one of the composition steps of this `load()` run throws. -/
def LoadInputs.anyFails (inp : LoadInputs) : Bool :=
  exceptFails inp.profilesRes || exceptFails inp.zonesRes ||
  exceptFails inp.fansRes || exceptFails inp.eventsRes

/-- `Manager::load` (manager.cpp, lines 157-224).  Nothing happens unless
`_loadAllowed` is raised.  `setProfiles` rebuilds the profile containers
(whatever partial state it leaves on a throw is kept — the caller restores
it); the zones and fans are built into locals and the fans moved into their
matching zones; the registry's accumulated groups are saved and cleared
before the events are built and restored if event building throws
(`Event::setAllGroups`); on success the zones and events are installed and
enabled, the timers and signal subscriptions are cleared, and further loads
are latched off.  An `Except.error` result carries the state left behind by
the throwing run. -/
def Manager.load (inp : LoadInputs) (st : ManagerState) :
    Except ManagerState ManagerState :=
  if !st.loadAllowed then Except.ok st
  else
    match inp.profilesRes with
    | Except.error part =>
      Except.error { st with profiles := part.1, activeProfiles := part.2 }
    | Except.ok prof =>
      let st1 := { st with profiles := prof.1, activeProfiles := prof.2 }
      match inp.zonesRes with
      | Except.error _ => Except.error st1
      | Except.ok zones =>
        match inp.fansRes with
        | Except.error _ => Except.error st1
        | Except.ok fans =>
          match inp.eventsRes with
          | Except.error _ =>
            -- the saved groups replace whatever the throwing event build
            -- accumulated, so the registry reads as before the load
            Except.error { st1 with allGroups := st.allGroups }
          | Except.ok evOk =>
            Except.ok
              { st1 with
                allGroups := evOk.2,
                zones := Manager.addFansToZones zones fans st1.activeProfiles,
                events := evOk.1,
                timers := [],
                signals := [],
                loadAllowed := false }

/-- `Manager::sighupHandler` (manager.cpp, lines 74-97): the available and
active profiles are swapped out to locals, `_loadAllowed` is raised and
`load()` runs; on a runtime error `_loadAllowed` is lowered and the saved
profile containers are swapped back. -/
def Manager.sighupHandler (inp : LoadInputs) (st : ManagerState) :
    ManagerState :=
  let savedProfiles := st.profiles
  let savedActive := st.activeProfiles
  let st1 :=
    { st with profiles := [], activeProfiles := [], loadAllowed := true }
  match Manager.load inp st1 with
  | Except.ok st2 => st2
  | Except.error st2 =>
    { st2 with
      loadAllowed := false,
      profiles := savedProfiles,
      activeProfiles := savedActive }

end control

/-- Placeholder sensor used as the out-of-range default of `List.getD`. -/
def sensorDefault : monitor.TachSensor :=
  { name := "", functional := true }

/-- Concrete fan name for the C7 witness. -/
def fanNameC7 : String := "fan0"

/-- A fan with three sensors (the first already non-functional), threshold
2, currently functional. -/
def fanC7 : monitor.Fan :=
  { name := fanNameC7
    functional := true
    numSensorFailsForNonFunc := 2
    sensors :=
      [{ name := "fan0_0", functional := false },
       { name := "fan0_1", functional := true },
       { name := "fan0_2", functional := true }] }

/-- Concrete profile name for the C3 witness. -/
def profNameC3 : String := "air"

/-- Concrete zone name for the C3 witness. -/
def zoneNameC3 : String := "cpu3"

/-- Concrete event name for the C3 witness. -/
def eventNameC3 : String := "ev3"

/-- Concrete group interface for the C3 witness. -/
def intfC3 : String := "xyz.openbmc_project.Sensor.Value"

/-- Concrete group property for the C3 witness. -/
def propC3 : String := "Value"

/-- A live manager state with one profile, group, zone, event, timer and
signal subscription, between loads. -/
def stC3 : control.ManagerState :=
  { profiles :=
      [((profNameC3, []), { name := profNameC3, profiles := [], active := true })]
    activeProfiles := [profNameC3]
    allGroups :=
      [((eventNameC3, []), { members := [], interface := intfC3, property := propC3 })]
    zones := [((zoneNameC3, []), control.Zone.ofConfig zoneNameC3 200 80 30 0 0)]
    events := [((eventNameC3, []), { name := eventNameC3, powerOnRuns := 1, powerOffRuns := 0 })]
    timers := [eventNameC3]
    signals := [eventNameC3]
    loadAllowed := false }

/-- A reload whose profiles step throws at once (every other step would
succeed with empty results). -/
def inpC3 : control.LoadInputs :=
  { profilesRes := Except.error ([], [])
    zonesRes := Except.ok []
    fansRes := Except.ok []
    eventsRes := Except.ok ([], []) }

/-- Concrete zone name for the C8 witness. -/
def zoneNameC8 : String := "cpu8"

/-- Concrete event name for the C8 witness. -/
def eventNameC8 : String := "ev8"

/-- A zone with poweron target 150 whose current target is 100. -/
def zoneC8 : control.Zone :=
  { control.Zone.ofConfig zoneNameC8 200 80 30 0 150 with target := 100 }

/-- An event with no triggers ever run. -/
def eventC8 : control.Event :=
  { name := eventNameC8, powerOnRuns := 0, powerOffRuns := 0 }

/-- A manager state with one loaded zone and one loaded event. -/
def stC8 : control.ManagerState :=
  { profiles := []
    activeProfiles := []
    allGroups := []
    zones := [((zoneNameC8, []), zoneC8)]
    events := [((eventNameC8, []), eventC8)]
    timers := []
    signals := []
    loadAllowed := false }

/-- Concrete zone name used by the C1 evaluation. -/
def zoneNameC1 : String := "cpu0"

/-- A zone with full speed 255 whose current target has decayed to 100
(the state of the spec's increase scenario). -/
def zoneC1 : control.Zone :=
  { control.Zone.ofConfig zoneNameC1 255 80 30 5 0 with target := 100 }

/-- Concrete zone name used by the C2 theorems. -/
def zoneNameC2 : String := "cpu1"

/-- A freshly constructed zone with full speed 100 and default floor 50. -/
def zoneC2 : control.Zone := control.Zone.ofConfig zoneNameC2 100 50 30 0 0

/-- A concrete mutation sequence without `set_floor` steps. -/
def stepsC2w : List control.ZoneStep :=
  [control.ZoneStep.requestIncrease 40, control.ZoneStep.requestDecrease 20,
   control.ZoneStep.decreaseTick 30]

/-- Concrete zone name used by the C9 witness. -/
def zoneNameC9 : String := "cpu9"

/-- A freshly constructed zone for the persisted-property claim. -/
def zoneC9 : control.Zone := control.Zone.ofConfig zoneNameC9 200 80 30 0 0

/-- The thermal-mode interface name used by `Zone::current`. -/
def intfC9 : String := "xyz.openbmc_project.Control.ThermalMode"

/-- The thermal-mode property name used by `Zone::current`. -/
def propC9 : String := "Current"

/-- Concrete path written by the C5 witness call. -/
def pathC5a : String := "/inv/fan1"

/-- A second concrete cached path for the C5 witness. -/
def pathC5b : String := "/inv/fan2"

/-- Concrete service name for the C5 witness. -/
def servC5 : String := "xyz.openbmc_project.Inventory.Manager"

/-- Concrete interface name for the C5 witness. -/
def intfC5 : String := "xyz.openbmc_project.Inventory.Item"

/-- A services cache holding `(pathC5b, servC5)` owned with `intfC5`. -/
def treeC5 : control.ServTree := [(pathC5b, [(servC5, (true, [intfC5]))])]

/-- The cascaded entry the C5 witness inspects. -/
def entryC5 : Bool × List String := (false, [intfC5])

/-- Concrete object path for the C6 evaluation. -/
def pathC6 : String := "/xyz/sensors/fan0"

/-- Concrete interface name for the C6 evaluation. -/
def intfC6 : String := "xyz.openbmc_project.Sensor.Value"

/-- Concrete property name for the C6 evaluation. -/
def propC6 : String := "Value"

/-- An object cache already holding `pathC6.intfC6.propC6 = 1`. -/
def objsC6 : control.ObjectsCache :=
  [(pathC6, [(intfC6, [(propC6, control.PropertyVariantType.u64 1)])])]

/-- A managed-objects fetch result carrying the new value 2 for the same
triple. -/
def fetchedC6 : List (String × control.IntfMap) :=
  [(pathC6, [(intfC6, [(propC6, control.PropertyVariantType.u64 2)])])]

/-- C4: `inConfig(input, comp)` returns true iff the names are equal and
either the input's profile set is empty or some profile occurs in both
profile sets and is also a member of the current active-profile list. -/
theorem control.Manager.inConfig_spec (input comp : control.configKey)
    (activeProfiles : List String) :
    control.Manager.inConfig input comp activeProfiles = true ↔
      (input.1 = comp.1 ∧
        (input.2 = [] ∨
          ∃ p, p ∈ input.2 ∧ p ∈ comp.2 ∧ p ∈ activeProfiles)) := by
  unfold control.Manager.inConfig
  by_cases hname : input.1 = comp.1
  · rw [if_neg (not_not_intro hname)]
    by_cases hempty : input.2 = []
    · simp [hname, hempty]
    · have hne : ¬(input.2.isEmpty = true) := by
        simp [List.isEmpty_iff, hempty]
      rw [if_neg hne]
      constructor
      · intro h
        rw [List.any_eq_true] at h
        obtain ⟨p, hp, h2⟩ := h
        rw [List.any_eq_true] at h2
        obtain ⟨q, hq, h3⟩ := h2
        by_cases hpq : p = q
        · subst hpq
          rw [if_neg (not_not_intro rfl)] at h3
          refine ⟨hname, Or.inr ⟨p, hp, hq, ?_⟩⟩
          simpa using h3
        · rw [if_pos hpq] at h3
          exact absurd h3 (by simp)
      · rintro ⟨-, h | ⟨p, hp, hq, hact⟩⟩
        · exact absurd h hempty
        · rw [List.any_eq_true]
          refine ⟨p, hp, ?_⟩
          rw [List.any_eq_true]
          refine ⟨p, hq, ?_⟩
          rw [if_neg (not_not_intro rfl)]
          simpa using hact
  · rw [if_pos hname]
    simp [hname]

/-- C1: the spec requires `request_increase(delta)` with `delta > 0` to raise
the target to `min(target + delta, full_speed)`, push it to the fans, and
extend the increase deadline; the source's `Zone::requestIncrease` is an
unimplemented stub (its body is a TODO comment), so on a zone with target 100
and full speed 255 an increase request of 40 leaves the zone — target,
deadline and fans included — completely unchanged instead of raising the
target to 140. -/
theorem control.Zone.requestIncrease_stub_behavior :
    control.Zone.requestIncrease zoneC1 40 = zoneC1 ∧
    zoneC1.target = 100 ∧ zoneC1.fullSpeed = 255 ∧
    min (zoneC1.target + 40) zoneC1.fullSpeed = 140 := by
  decide

/-- Every in-range entry of an association list updated by `mapSetD` at its
own key holds the function applied to the previous value (or to the default
when the key was absent). -/
theorem control.lookupKey_mapSetD_self {α : Type} (m : List (String × α))
    (k : String) (d : α) (f : α → α) :
    control.lookupKey (control.mapSetD m k d f) k
      = some (f ((control.lookupKey m k).getD d)) := by
  induction m with
  | nil => simp [control.mapSetD, control.lookupKey]
  | cons hd tl ih =>
    obtain ⟨k2, v⟩ := hd
    by_cases hk : k2 = k
    · simp [control.mapSetD, control.lookupKey, hk]
    · simp [control.mapSetD, control.lookupKey, hk, ih]

/-- `mapSetD` leaves the entries of every other key unchanged. -/
theorem control.lookupKey_mapSetD_ne {α : Type} (m : List (String × α))
    (k k2 : String) (d : α) (f : α → α) (hne : k2 ≠ k) :
    control.lookupKey (control.mapSetD m k d f) k2 = control.lookupKey m k2 := by
  induction m with
  | nil => simp [control.mapSetD, control.lookupKey, Ne.symm hne]
  | cons hd tl ih =>
    obtain ⟨k3, v⟩ := hd
    by_cases hk : k3 = k
    · subst hk
      simp [control.mapSetD, control.lookupKey, Ne.symm hne]
    · simp [control.mapSetD, control.lookupKey, hk, ih]

/-- Every public mutation other than `set_floor` preserves the target-bounds
invariant. -/
theorem control.Zone.applyStep_bounds (z : control.Zone) (s : control.ZoneStep)
    (hz : control.zoneInvariant z) (hs : s.isSetFloorStep = false) :
    control.zoneInvariant (z.applyStep s) := by
  obtain ⟨h1, h2⟩ := hz
  cases s with
  | requestIncrease delta => exact ⟨h1, h2⟩
  | requestDecrease delta => exact ⟨h1, h2⟩
  | setFloor f => simp [control.ZoneStep.isSetFloorStep] at hs
  | decreaseTick now =>
    show control.zoneInvariant (z.decreaseTick now)
    unfold control.Zone.decreaseTick
    split
    · rename_i hc
      obtain ⟨hd, hnow, hft⟩ := hc
      refine ⟨?_, ?_⟩
      · show z.floor ≤ z.target - z.decDelta
        omega
      · show z.target - z.decDelta ≤ z.fullSpeed
        omega
    · split
      · refine ⟨?_, ?_⟩
        · show z.floor ≤ z.floor
          exact le_refl _
        · show z.floor ≤ z.fullSpeed
          omega
      · exact ⟨h1, h2⟩

/-- The target-bounds invariant is preserved by any `set_floor`-free
mutation sequence. -/
theorem control.Zone.applySteps_bounds (z : control.Zone)
    (steps : List control.ZoneStep) (hz : control.zoneInvariant z)
    (hns : ∀ s ∈ steps, s.isSetFloorStep = false) :
    control.zoneInvariant (z.applySteps steps) := by
  induction steps generalizing z with
  | nil => exact hz
  | cons s rest ih =>
    exact ih (z.applyStep s)
      (control.Zone.applyStep_bounds z s ⟨hz.1, hz.2⟩ (hns s (by simp)))
      (fun t ht => hns t (by simp [ht]))

/-- C2 counterexample: on a zone freshly constructed with full speed 100 and
default floor 50, the single public mutation `set_floor(120)` (all
floor-change gates are vacuously true) sets the floor to 120 while
`requestIncrease`, being a stub, leaves the target at 100, so
`floor ≤ target` is violated after that step. -/
theorem control.Zone.target_bounds_fail_setFloor :
    ¬ control.zoneInvariant
        (zoneC2.applySteps [control.ZoneStep.setFloor 120]) := by
  decide

/-- C2 (amended): for every zone freshly constructed with
`default_floor ≤ full_speed`, after any sequence of `request_increase`,
`request_decrease` and decrease-timer ticks (`set_floor` excluded) the
invariant `floor ≤ target ≤ full_speed` holds; every prefix of such a
sequence satisfies the same hypotheses, so the invariant holds after each
step of the sequence. -/
theorem control.Zone.target_bounds (name : String)
    (fullSpeed defaultFloor decInterval incDelay poweronTarget : Nat)
    (steps : List control.ZoneStep)
    (hdf : defaultFloor ≤ fullSpeed)
    (hns : ∀ s ∈ steps, s.isSetFloorStep = false) :
    control.zoneInvariant
      ((control.Zone.ofConfig name fullSpeed defaultFloor decInterval incDelay
        poweronTarget).applySteps steps) :=
  control.Zone.applySteps_bounds _ steps ⟨hdf, le_refl _⟩ hns

/-- C2 witness: the amended invariant evaluated on a concrete zone and a
concrete three-step sequence. -/
theorem control.Zone.target_bounds_witness :
    ((50 : Nat) ≤ 100 ∧ ∀ s ∈ stepsC2w, s.isSetFloorStep = false) ∧
    control.zoneInvariant
      ((control.Zone.ofConfig zoneNameC2 100 50 30 5 0).applySteps stepsC2w) :=
  ⟨⟨by decide, by decide⟩,
   control.Zone.target_bounds zoneNameC2 100 50 30 5 0 stepsC2w (by decide)
     (by decide)⟩

/-- C9: `Zone::setPersisted` appends the property name only when `find_if`
already locates it (an inverted condition), so calling it for a property
that was not previously recorded leaves `isPersisted` returning false. -/
theorem control.Zone.setPersisted_not_recorded (z : control.Zone)
    (intf prop : String)
    (h : control.Zone.isPersisted z intf prop = false) :
    control.Zone.isPersisted (z.setPersisted intf prop) intf prop = false := by
  have hcur : ((control.lookupKey z.propsPersisted intf).getD []).any
      (fun p => prop = p) = false := by
    unfold control.Zone.isPersisted at h
    cases hl : control.lookupKey z.propsPersisted intf with
    | none => simp
    | some l =>
      rw [hl] at h
      simpa using h
  unfold control.Zone.isPersisted control.Zone.setPersisted
  simp at hcur
  have hmem : prop ∉ (control.lookupKey z.propsPersisted intf).getD [] :=
    fun hm => hcur prop hm rfl
  simp [control.lookupKey_mapSetD_self, hmem]
  exact hcur

/-- C9 witness: on a fresh zone the thermal-mode `Current` property is not
persisted, and remains not persisted after `setPersisted` records it. -/
theorem control.Zone.setPersisted_not_recorded_witness :
    control.Zone.isPersisted zoneC9 intfC9 propC9 = false ∧
    control.Zone.isPersisted (zoneC9.setPersisted intfC9 propC9) intfC9 propC9
      = false :=
  ⟨by decide,
   control.Zone.setPersisted_not_recorded zoneC9 intfC9 propC9 (by decide)⟩

/-- Looking up in a key-preserving value map rewrites to mapping the lookup
result. -/
theorem control.lookupKey_mapValues {α : Type} (m : List (String × α))
    (g : String × α → α) (p : String) :
    control.lookupKey (m.map (fun kv => (kv.1, g kv))) p
      = (control.lookupKey m p).map (fun v => g (p, v)) := by
  induction m with
  | nil => simp [control.lookupKey]
  | cons hd tl ih =>
    obtain ⟨k, v⟩ := hd
    by_cases hk : k = p
    · subst hk
      simp [control.lookupKey]
    · simp [control.lookupKey, hk, ih]

/-- C5: after `setOwner(p1, s, i, b)` every services-cache entry of service
`s` whose interface list contains `i` — at any path `p` — has owner flag `b`,
and the named `(p1, s)` entry itself exists with flag `b` and `i` in its
interface list. -/
theorem control.Manager.setOwner_cascade (tree : control.ServTree)
    (path serv intf : String) (isOwned : Bool) (p : String)
    (e : Bool × List String)
    (he : control.servEntry (control.Manager.setOwner tree path serv intf isOwned)
            p serv = some e)
    (hi : intf ∈ e.2) :
    e.1 = isOwned ∧
    ∃ l, control.servEntry (control.Manager.setOwner tree path serv intf isOwned)
          path serv = some (isOwned, l) ∧ intf ∈ l := by
  have hnamed : ∃ l,
      control.servEntry (control.Manager.setOwner tree path serv intf isOwned)
        path serv = some (isOwned, l) ∧ intf ∈ l := by
    unfold control.servEntry control.Manager.setOwner
      control.Manager.setOwnerNamed
    rw [control.lookupKey_mapValues, control.lookupKey_mapSetD_self]
    by_cases hmem :
        intf ∈ ((control.lookupKey ((control.lookupKey tree path).getD [])
          serv).getD (false, [])).2
    · simp [control.lookupKey_mapSetD_self, hmem]
    · simp [control.lookupKey_mapSetD_self, hmem]
  refine ⟨?_, hnamed⟩
  by_cases hp : p = path
  · subst hp
    obtain ⟨l, hl, -⟩ := hnamed
    rw [he] at hl
    cases hl
    rfl
  · unfold control.servEntry control.Manager.setOwner
      control.Manager.setOwnerNamed at he
    rw [control.lookupKey_mapValues,
      control.lookupKey_mapSetD_ne tree path p [] _ hp] at he
    cases hlp : control.lookupKey tree p with
    | none =>
      rw [hlp] at he
      simp at he
    | some servMap =>
      rw [hlp] at he
      simp only [Option.map_some', Option.some_bind, if_neg hp] at he
      rw [control.lookupKey_mapValues] at he
      cases hls : control.lookupKey servMap serv with
      | none =>
        rw [hls] at he
        simp at he
      | some w =>
        rw [hls] at he
        simp only [Option.map_some', Option.some_bind, Option.some_inj,
          ne_eq, not_true_eq_false, if_false] at he
        by_cases hw : intf ∈ w.2
        · rw [if_pos hw] at he
          rw [← he]
        · rw [if_neg hw] at he
          rw [← he] at hi
          exact absurd hi hw

/-- C5 witness: setting `(pathC5a, servC5, intfC5)` unowned cascades the
unowned flag onto the cached `(pathC5b, servC5)` entry, and the named entry
is created unowned with `intfC5` in its list. -/
theorem control.Manager.setOwner_cascade_witness :
    entryC5.1 = false ∧
    ∃ l, control.servEntry
        (control.Manager.setOwner treeC5 pathC5a servC5 intfC5 false)
        pathC5a servC5 = some (false, l) ∧ intfC5 ∈ l :=
  control.Manager.setOwner_cascade treeC5 pathC5a servC5 intfC5 false pathC5b
    entryC5 (by decide) (by decide)

/-- C6: the spec's intended merge-by-key (fetched property values overwrite
cached ones) does not happen: on a cache holding value 1 for the triple and a
managed-objects fetch returning value 2 for the same triple, the merge loop
of `Manager::addObjects` leaves the cache completely unchanged — the
iteration runs over the cached maps and assigns every cached property its
own value, never consulting the fetched object. -/
theorem control.Manager.addObjects_ignores_fetched :
    control.Manager.addObjectsMerge objsC6 fetchedC6 = objsC6 ∧
    fetchedC6 ≠ objsC6 :=
  ⟨by decide, by decide⟩

/-- `setFunctionalAt` changes no sensor other than the targeted index and
preserves the list length. -/
theorem monitor.length_setFunctionalAt (sensors : List monitor.TachSensor)
    (i : Nat) :
    (monitor.setFunctionalAt sensors i).length = sensors.length := by
  induction sensors generalizing i with
  | nil => rfl
  | cons s rest ih =>
    cases i with
    | zero => rfl
    | succ n => simp [monitor.setFunctionalAt, ih]

/-- The targeted in-range sensor is non-functional after
`setFunctionalAt`. -/
theorem monitor.getD_setFunctionalAt (sensors : List monitor.TachSensor)
    (i : Nat) (hi : i < sensors.length) :
    ((monitor.setFunctionalAt sensors i).getD i sensorDefault).functional
      = false := by
  induction sensors generalizing i with
  | nil => simp at hi
  | cons s rest ih =>
    cases i with
    | zero => rfl
    | succ n =>
      simp only [monitor.setFunctionalAt, List.getD_cons_succ]
      exact ih n (by simpa using hi)

/-- C7: on expiry of sensor `i`'s debounce timer (with the inventory Notify
call succeeding), the sensor is marked non-functional; the fan transitions
from functional to non-functional exactly when it was functional and the
number of non-functional sensors after the marking reaches
`num_sensor_fails_for_nonfunc`; when the count stays below the threshold the
fan's functional state is unchanged. -/
theorem monitor.Fan.timerExpired_debounce (fan : monitor.Fan) (i : Nat)
    (hi : i < fan.sensors.length) :
    ((monitor.Fan.timerExpired fan i true).sensors.getD i
        sensorDefault).functional = false ∧
    ((fan.functional = true ∧
        (monitor.Fan.timerExpired fan i true).functional = false) ↔
      (fan.functional = true ∧
        fan.numSensorFailsForNonFunc ≤
          monitor.countNonfunctional (monitor.setFunctionalAt fan.sensors i))) ∧
    (monitor.countNonfunctional (monitor.setFunctionalAt fan.sensors i) <
        fan.numSensorFailsForNonFunc →
      (monitor.Fan.timerExpired fan i true).functional = fan.functional) := by
  have hget := monitor.getD_setFunctionalAt fan.sensors i hi
  by_cases hf : fan.functional = true
  · by_cases hc : fan.numSensorFailsForNonFunc ≤
        monitor.countNonfunctional (monitor.setFunctionalAt fan.sensors i)
    · have hres : monitor.Fan.timerExpired fan i true =
          { fan with sensors := monitor.setFunctionalAt fan.sensors i,
                     functional := false } := by
        simp [monitor.Fan.timerExpired, monitor.Fan.tooManySensorsNonfunctional,
          monitor.Fan.updateInventory, hf, hc]
      refine ⟨?_, ?_, ?_⟩
      · rw [hres]
        exact hget
      · rw [hres]
        simp [hf, hc]
      · intro hlt
        exact absurd hc (by omega)
    · have hres : monitor.Fan.timerExpired fan i true =
          { fan with sensors := monitor.setFunctionalAt fan.sensors i } := by
        simp [monitor.Fan.timerExpired, monitor.Fan.tooManySensorsNonfunctional,
          hc]
      refine ⟨?_, ?_, ?_⟩
      · rw [hres]
        exact hget
      · rw [hres]
        simp [hf, hc]
      · intro hlt
        rw [hres]
  · have hf2 : fan.functional = false := by
      simpa using hf
    have hres : monitor.Fan.timerExpired fan i true =
        { fan with sensors := monitor.setFunctionalAt fan.sensors i } := by
      simp [monitor.Fan.timerExpired, hf2]
    refine ⟨?_, ?_, ?_⟩
    · rw [hres]
      exact hget
    · rw [hres]
      simp [hf2]
    · intro hlt
      rw [hres]

/-- C7 witness: on a concrete three-sensor fan with threshold 2 and one
sensor already failed, expiring sensor 1's timer marks it non-functional and
the fan transitions to non-functional per the count-threshold
biconditional. -/
theorem monitor.Fan.timerExpired_debounce_witness :
    (1 < fanC7.sensors.length) ∧
    ((monitor.Fan.timerExpired fanC7 1 true).sensors.getD 1
        sensorDefault).functional = false ∧
    ((fanC7.functional = true ∧
        (monitor.Fan.timerExpired fanC7 1 true).functional = false) ↔
      (fanC7.functional = true ∧
        fanC7.numSensorFailsForNonFunc ≤
          monitor.countNonfunctional
            (monitor.setFunctionalAt fanC7.sensors 1))) :=
  ⟨by decide, (monitor.Fan.timerExpired_debounce fanC7 1 (by decide)).1,
   (monitor.Fan.timerExpired_debounce fanC7 1 (by decide)).2.1⟩

/-- C10: `Fan::updateInventory(functional)` assigns the in-memory
`_functional` flag only after the inventory Notify call succeeds; on a
method error the whole fan object is left exactly as it was, so the flag
always tracks the last successfully published inventory state. -/
theorem monitor.Fan.updateInventory_tracks_success (fan : monitor.Fan)
    (functional : Bool) :
    monitor.Fan.updateInventory fan functional false = fan ∧
    (monitor.Fan.updateInventory fan functional true).functional = functional ∧
    (monitor.Fan.updateInventory fan functional true).sensors = fan.sensors :=
  ⟨rfl, rfl, rfl⟩

/-- C3: if `load()` raises during a SIGHUP-triggered reload, every live
configuration container — the profiles map, the active-profile list, the
registered groups, the zones and events (and the timers and signal
subscriptions) — is identical to its pre-reload value, the `_loadAllowed`
latch is false, and any further `load()` call is a no-op until the next
SIGHUP raises the latch again. -/
theorem control.Manager.sighup_rollback (st : control.ManagerState)
    (inp : control.LoadInputs) (h : inp.anyFails = true) :
    (control.Manager.sighupHandler inp st).profiles = st.profiles ∧
    (control.Manager.sighupHandler inp st).activeProfiles = st.activeProfiles ∧
    (control.Manager.sighupHandler inp st).allGroups = st.allGroups ∧
    (control.Manager.sighupHandler inp st).zones = st.zones ∧
    (control.Manager.sighupHandler inp st).events = st.events ∧
    (control.Manager.sighupHandler inp st).timers = st.timers ∧
    (control.Manager.sighupHandler inp st).signals = st.signals ∧
    (control.Manager.sighupHandler inp st).loadAllowed = false ∧
    (∀ inp2, control.Manager.load inp2 (control.Manager.sighupHandler inp st)
      = Except.ok (control.Manager.sighupHandler inp st)) := by
  cases hp : inp.profilesRes with
  | error part =>
    simp [control.Manager.sighupHandler, control.Manager.load, hp]
  | ok prof =>
    cases hz : inp.zonesRes with
    | error u =>
      simp [control.Manager.sighupHandler, control.Manager.load, hp, hz]
    | ok zones =>
      cases hf : inp.fansRes with
      | error u =>
        simp [control.Manager.sighupHandler, control.Manager.load, hp, hz, hf]
      | ok fans =>
        cases he : inp.eventsRes with
        | error part =>
          simp [control.Manager.sighupHandler, control.Manager.load, hp, hz,
            hf, he]
        | ok evOk =>
          exfalso
          simp [control.LoadInputs.anyFails, control.exceptFails, hp, hz, hf,
            he] at h

/-- C3 witness: a reload whose profiles step throws leaves the concrete live
state untouched, lowers the load latch, and makes a further load a no-op. -/
theorem control.Manager.sighup_rollback_witness :
    inpC3.anyFails = true ∧
    (control.Manager.sighupHandler inpC3 stC3).profiles = stC3.profiles ∧
    (control.Manager.sighupHandler inpC3 stC3).zones = stC3.zones ∧
    (control.Manager.sighupHandler inpC3 stC3).events = stC3.events ∧
    (control.Manager.sighupHandler inpC3 stC3).loadAllowed = false ∧
    control.Manager.load inpC3 (control.Manager.sighupHandler inpC3 stC3)
      = Except.ok (control.Manager.sighupHandler inpC3 stC3) :=
  have h := control.Manager.sighup_rollback stC3 inpC3 (by decide)
  ⟨by decide, h.1, h.2.2.2.1, h.2.2.2.2.1, h.2.2.2.2.2.2.2.1,
   h.2.2.2.2.2.2.2.2 inpC3⟩

/-- C8: power-on with zero zones raises the fatal no-zones runtime error;
power-on with at least one zone succeeds, setting every zone's target to its
own poweron target (keys preserved) and firing every event's PowerOn
triggers exactly once (PowerOff untouched); power-off succeeds, leaves the
zones untouched, and fires every event's PowerOff triggers exactly once. -/
theorem control.Manager.powerStateChanged_spec (st : control.ManagerState)
    (hne : st.zones ≠ []) :
    control.Manager.powerStateChanged { st with zones := [] } true
      = Except.error control.noZonesMsg ∧
    (∃ st2, control.Manager.powerStateChanged st true = Except.ok st2 ∧
      st2.zones.map (fun entry => entry.1) = st.zones.map (fun entry => entry.1) ∧
      st2.zones.map (fun entry => entry.2.target)
        = st.zones.map (fun entry => entry.2.poweronTarget) ∧
      st2.events.map
          (fun entry => (entry.1, entry.2.name, entry.2.powerOnRuns,
            entry.2.powerOffRuns))
        = st.events.map
          (fun entry => (entry.1, entry.2.name, entry.2.powerOnRuns + 1,
            entry.2.powerOffRuns))) ∧
    (∃ st3, control.Manager.powerStateChanged st false = Except.ok st3 ∧
      st3.zones = st.zones ∧
      st3.events.map
          (fun entry => (entry.1, entry.2.name, entry.2.powerOnRuns,
            entry.2.powerOffRuns))
        = st.events.map
          (fun entry => (entry.1, entry.2.name, entry.2.powerOnRuns,
            entry.2.powerOffRuns + 1))) := by
  have hz : st.zones.isEmpty = false := by
    simpa [List.isEmpty_iff] using hne
  refine ⟨?_, ?_, ?_⟩
  · simp [control.Manager.powerStateChanged]
  · have hok : control.Manager.powerStateChanged st true =
        Except.ok
          { st with
            zones := st.zones.map
              (fun entry => (entry.1, entry.2.setTarget entry.2.poweronTarget)),
            events := st.events.map
              (fun entry => (entry.1, entry.2.powerOn)) } := by
      simp [control.Manager.powerStateChanged, hz]
    refine ⟨_, hok, ?_, ?_, ?_⟩
    · simp [List.map_map, Function.comp_def]
    · simp [List.map_map, Function.comp_def, control.Zone.setTarget]
    · simp [List.map_map, Function.comp_def, control.Event.powerOn]
  · have hok : control.Manager.powerStateChanged st false =
        Except.ok
          { st with
            events := st.events.map
              (fun entry => (entry.1, entry.2.powerOff)) } := by
      simp [control.Manager.powerStateChanged]
    refine ⟨_, hok, rfl, ?_⟩
    simp [List.map_map, Function.comp_def, control.Event.powerOff]

/-- C8 witness: on the concrete one-zone one-event state, emptying the zone
container makes power-on raise the fatal error, while the populated state
satisfies the hypothesis. -/
theorem control.Manager.powerStateChanged_spec_witness :
    stC8.zones ≠ [] ∧
    control.Manager.powerStateChanged { stC8 with zones := [] } true
      = Except.error control.noZonesMsg :=
  ⟨by decide, (control.Manager.powerStateChanged_spec stC8 (by decide)).1⟩
